import Mathlib

/-!
Verification of the monthly sign-in sheet generator
(`generar_planilla_word.py`, `gui_planilla.py`).

The development shallow-embeds the program's core logic:
* Python string primitives (`str.split`, `str.strip`, `str.isdigit`, `int()`)
  as structurally recursive functions over `List Char`;
* the parts of Python's `calendar`/`datetime` modules the program uses
  (`monthrange`, `weekday`, `date` validity) over `Nat`;
* the parsers `parse_date_list`, `parse_notes` and the form validator
  `PlanillaApp._parse_horas`;
* the table builder `build_table` and the driver `generar_planilla_word`,
  modelled as pure functions returning the final cell grid (text plus
  background fill of every cell); exceptions become `Except.error`.
-/

/-! ## Python string primitives -/

/-- Python `str.split(sep)` for a one-character separator: splits on every
occurrence, keeping empty pieces; the empty string yields `[[]]`. -/
def splitChar (sep : Char) : List Char → List (List Char)
  | [] => [[]]
  | c :: cs =>
    let r := splitChar sep cs
    if c == sep then [] :: r
    else
      match r with
      | [] => [[c]]
      | h :: t => (c :: h) :: t

/-- Models `text.split(sep)` on `String`s (single-character separator). -/
def pySplit (sep : Char) (s : String) : List String :=
  (splitChar sep s.data).map (fun l => ⟨l⟩)

/-- Python `str.split(sep, 1)`: the part before the first separator paired with the
part after it (the second component is meaningful only when the separator
occurs, which every caller checks first with `in`). -/
def splitFirstAux (sep : Char) : List Char → List Char × List Char
  | [] => ([], [])
  | c :: cs =>
    if c == sep then ([], cs)
    else
      let r := splitFirstAux sep cs
      (c :: r.1, r.2)

/-- Python `str.strip()`: drop whitespace from both ends. -/
def pyStrip (s : String) : String :=
  ⟨((s.data.dropWhile Char.isWhitespace).reverse.dropWhile Char.isWhitespace).reverse⟩

/-- Value of a string of decimal digits. -/
def digitsToNat (l : List Char) : Nat :=
  l.foldl (fun n c => n * 10 + (c.toNat - 48)) 0

/-- Python `s.isdigit()` followed by `int(s)`: `some` exactly on nonempty all-digit
strings. -/
def pyDigits? (s : String) : Option Nat :=
  if s.data ≠ [] ∧ s.data.all Char.isDigit then some (digitsToNat s.data) else none

/-- Python `int(s)` on a string: optional surrounding whitespace, optional
single sign, then decimal digits; `none` where `int()` raises `ValueError`. -/
def pyInt? (s : String) : Option Int :=
  match (pyStrip s).data with
  | '-' :: rest =>
    if rest ≠ [] ∧ rest.all Char.isDigit then some (-(digitsToNat rest : Int)) else none
  | '+' :: rest =>
    if rest ≠ [] ∧ rest.all Char.isDigit then some ((digitsToNat rest : Int)) else none
  | l => if l ≠ [] ∧ l.all Char.isDigit then some ((digitsToNat l : Int)) else none

/-! ## Calendar (proleptic Gregorian, as Python's `calendar` / `datetime`) -/

/-- Python `calendar.isleap`. -/
def isLeap (y : Nat) : Bool :=
  y % 4 == 0 && (y % 100 != 0 || y % 400 == 0)

/-- Python `calendar.monthrange(y, m)[1]`: day count of month `m` of year `y`
(`mdays[m]` plus the February leap adjustment). -/
def daysInMonth (y m : Nat) : Nat :=
  if m == 2 then (if isLeap y then 29 else 28)
  else if m == 4 || m == 6 || m == 9 || m == 11 then 30
  else 31

/-- Days in all years before year `y` (year 1 is the first year). -/
def daysBeforeYear (y : Nat) : Nat :=
  (y - 1) * 365 + (y - 1) / 4 - (y - 1) / 100 + (y - 1) / 400

/-- Days in the months of year `y` preceding month `m`. -/
def daysBeforeMonth (y m : Nat) : Nat :=
  ((List.range (m - 1)).map (fun i => daysInMonth y (i + 1))).sum

/-- Python `date(y, m, d).toordinal()`: 0001-01-01 is ordinal 1. -/
def ordinalOfDate (y m d : Nat) : Nat :=
  daysBeforeYear y + daysBeforeMonth y m + d

/-- Python `calendar.weekday(y, m, d)`: 0 = Monday … 6 = Sunday
(0001-01-01, ordinal 1, is a Monday). -/
def weekday (y m d : Nat) : Nat :=
  (ordinalOfDate y m d + 6) % 7

/-- A valid `datetime.date` value (only validated dates are ever stored). -/
structure Date where
  year : Nat
  month : Nat
  day : Nat
deriving DecidableEq, Repr

/-- Python `datetime.date(y, m, d)`: `some` iff the constructor does not raise
(`MINYEAR = 1`, `MAXYEAR = 9999`, month 1–12, day within the month). -/
def date? (y m d : Int) : Option Date :=
  if 1 ≤ y ∧ y ≤ 9999 ∧ 1 ≤ m ∧ m ≤ 12 ∧ 1 ≤ d ∧ d ≤ (daysInMonth y.toNat m.toNat : Int) then
    some ⟨y.toNat, m.toNat, d.toNat⟩
  else none

/-! ## Python `dict` with `int` keys and `str` values
(insertion-ordered association list; assignment to an existing key updates
in place, as in CPython). -/

def dictInsert (d : List (Int × String)) (k : Int) (v : String) : List (Int × String) :=
  if d.any (fun p => p.1 == k) then d.map (fun p => if p.1 == k then (k, v) else p)
  else d ++ [(k, v)]

/-- Python `d.get(k)`. -/
def dictGet (d : List (Int × String)) (k : Int) : Option String :=
  (d.find? (fun p => p.1 == k)).map (fun p => p.2)

/-- Python truthiness of `dict.get`'s result: `None` and `""` are falsy. -/
def pyTruthy : Option String → Bool
  | some s => !(s == "")
  | none => false

/-! ## The input parsers (`generar_planilla_word.py`) -/

/-- One token of the holiday list: strip it, split on `"-"`, convert the
three pieces with `int()`, build a `date` — any failure (`ValueError` from
unpacking, `int()`, or `date()`) is caught by the `except: pass`. -/
def tokenDate? (tok : String) : Option Date :=
  match (pySplit '-' (pyStrip tok)).map pyInt? with
  | [some y, some m, some d] => date? y m d
  | _ => none

/-- The function `parse_date_list` of `generar_planilla_word.py`. -/
def parse_date_list (text : String) : Finset Date :=
  if text == "" then ∅
  else
    (pySplit ',' text).foldl (fun out tok =>
      match tokenDate? tok with
      | some dt => insert dt out
      | none => out) ∅

/-- One token of the note list: strip it, require a colon (`":" in tok`),
split on the first colon only (`tok.split(":", 1)`), `int()` the key — a
`ValueError` there skips the token (`except: continue`) — and strip the
value. -/
def tokenNote? (tok : String) : Option (Int × String) :=
  let tok := pyStrip tok
  if tok.data.contains ':' then
    let kv := splitFirstAux ':' tok.data
    match pyInt? ⟨kv.1⟩ with
    | some k => some (k, pyStrip ⟨kv.2⟩)
    | none => none
  else none

/-- The function `parse_notes` of `generar_planilla_word.py`: split on
commas, handle each token with `tokenNote?`, and assign `out[k] = v`. -/
def parse_notes (text : String) : List (Int × String) :=
  if text == "" then []
  else
    (pySplit ',' text).foldl (fun out tok =>
      match tokenNote? tok with
      | some kv => dictInsert out kv.1 kv.2
      | none => out) []

/-! ## The form-path time validator (`PlanillaApp._parse_horas`) -/

/-- The per-time check inside `_parse_horas`: split on `":"`, require exactly
two pieces, both `isdigit`, hour 0–23 and minute 0–59; error messages as in
the source (`ValueError` text). -/
def checkHHMM (hhmm : String) : Except String Unit :=
  let ps := pySplit ':' hhmm
  if ps.length != 2 then .error ("Hora inválida: " ++ hhmm)
  else
    match pyDigits? (ps.getD 0 ""), pyDigits? (ps.getD 1 "") with
    | some hh, some mm =>
      if hh ≤ 23 && mm ≤ 59 then .ok ()
      else .error ("Hora fuera de rango: " ++ hhmm)
    | _, _ => .error ("Hora inválida: " ++ hhmm)

/-- The validator `PlanillaApp._parse_horas`: split on `","` and strip the parts, require
exactly two, each containing `":"`, then check each with `checkHHMM`;
returns the stripped `(entrada, salida)` pair on success. -/
def parse_horas (text : String) : Except String (String × String) :=
  let parts := (pySplit ',' text).map pyStrip
  if parts.length != 2 || parts.any (fun p => !(p.data.contains ':')) then
    .error "Formato de hora inválido. Use HH:MM,HH:MM (ej: 06:30,13:00)"
  else
    let h1 := parts.getD 0 ""
    let h2 := parts.getD 1 ""
    match checkHHMM h1 with
    | .error e => .error e
    | .ok _ =>
      match checkHHMM h2 with
      | .error e => .error e
      | .ok _ => .ok (h1, h2)

/-- Spec-side predicate (for the refinement claim about `_parse_horas`),
following the spec's words: a part is a valid time when it consists of
exactly two numeric segments separated by `":"`, with hour in [0,23] and
minute in [0,59]. -/
def validHHMM_spec (p : String) : Bool :=
  let segs := pySplit ':' p
  segs.length == 2 &&
    match pyDigits? (segs.getD 0 ""), pyDigits? (segs.getD 1 "") with
    | some hh, some mm => hh ≤ 23 && mm ≤ 59
    | _, _ => false

/-- Spec-side predicate: the input splits on the comma into exactly two
(stripped) parts, each containing a colon and forming a valid `HH:MM` time. -/
def timePair_spec (text : String) : Bool :=
  let parts := (pySplit ',' text).map pyStrip
  parts.length == 2 && parts.all (fun p => p.data.contains ':' && validHHMM_spec p)

/-! ## The table builder (`build_table` of `generar_planilla_word.py`)

A cell is its final text together with the background fill set by
`set_cell_shading` (at most one fill is ever applied per cell). A row is the
list of its 9 cells; the table is the list of rows. The imperative cell
writes are replayed in source order with `setCol`, so later writes to the
same cell overwrite earlier ones exactly as `cell.text = ...` does. -/

structure Cell where
  text : String
  shade : Option String
deriving DecidableEq, Repr

def blankCell : Cell := ⟨"", none⟩

/-- One cell write `table.cell(r, c).text = t`, restricted to one row. -/
def setCol (row : List Cell) (i : Nat) (t : String) : List Cell :=
  row.set i { row.getD i blankCell with text := t }

/-- The signature columns `(2, 4, 6, 8)` of the day grid. -/
def sigCol (c : Nat) : Bool :=
  c == 2 || c == 4 || c == 6 || c == 8

/-- The inner helper `fill_dashes` of `build_table`: `for c in range(1, 9)`,
signature columns become `""`, the others `"---"`. Note it starts at column
1, so it overwrites whatever was written to the label column before it. -/
def fill_dashes (row : List Cell) : List Cell :=
  (List.range' 1 8).foldl (fun r c => setCol r c (if sigCol c then "" else "---")) row

/-- Models `set_cell_shading(cell, fill)` applied to every cell of the row
(`for c in range(0, 9)`). -/
def shadeRow (row : List Cell) (fill : String) : List Cell :=
  row.map (fun c => { c with shade := some fill })

/-- Header row 0: cell 0 empty, cells 1–4 merged into one "MAÑANA" cell and
cells 5–8 merged into one "TARDE" cell (after `a.merge(b)` all grid positions
of a merged region read the merged cell's text). -/
def headerRow0 : List Cell :=
  [⟨"", none⟩,
   ⟨"MAÑANA", none⟩, ⟨"MAÑANA", none⟩, ⟨"MAÑANA", none⟩, ⟨"MAÑANA", none⟩,
   ⟨"TARDE", none⟩, ⟨"TARDE", none⟩, ⟨"TARDE", none⟩, ⟨"TARDE", none⟩]

/-- Header row 1: the column labels, each shaded `EFEFEF`. -/
def headerRow1 : List Cell :=
  [⟨"DIAS", some "EFEFEF"⟩,
   ⟨"ENTRADA", some "EFEFEF"⟩, ⟨"FIRMA", some "EFEFEF"⟩,
   ⟨"SALIDA", some "EFEFEF"⟩, ⟨"FIRMA", some "EFEFEF"⟩,
   ⟨"ENTRADA", some "EFEFEF"⟩, ⟨"FIRMA", some "EFEFEF"⟩,
   ⟨"SALIDA", some "EFEFEF"⟩, ⟨"FIRMA", some "EFEFEF"⟩]

/-- The day-`d` row of `build_table`'s loop body, replayed write by write.
In the `feriados` branch the source writes `"FERIADO"` to column 1 and then
calls `fill_dashes()`, which overwrites column 1 with `"---"`; likewise in
the note branch the note text written to column 1 is overwritten. The
weekend branch fills only columns 2–8, so its label survives. -/
def dayRow (mes anio : Nat) (hora_maniana hora_tarde : String × String)
    (extras_dow : List Int) (notas_por_dia : List (Int × String))
    (feriados : Finset Date) (d : Nat) : List Cell :=
  let dow := weekday anio mes d
  let r0 := setCol (List.replicate 9 blankCell) 0 (toString d)
  if dow ≥ 5 then
    let label := if dow == 5 then "SÁBADO" else "DOMINGO"
    shadeRow
      ((List.range' 2 7).foldl (fun r c => setCol r c (if sigCol c then "" else "---"))
        (setCol r0 1 label))
      "F8F8F8"
  else if (⟨anio, mes, d⟩ : Date) ∈ feriados then
    shadeRow (fill_dashes (setCol r0 1 "FERIADO")) "FFF2CC"
  else if pyTruthy (dictGet notas_por_dia (d : Int)) then
    fill_dashes (setCol r0 1 ((dictGet notas_por_dia (d : Int)).getD ""))
  else
    let r1 := setCol (setCol r0 1 hora_maniana.1) 3 hora_maniana.2
    let r2 := setCol (setCol (setCol (setCol r1 2 "") 4 "") 6 "") 8 ""
    if (dow : Int) ∈ extras_dow then
      setCol (setCol r2 5 hora_tarde.1) 7 hora_tarde.2
    else
      setCol (setCol r2 5 "---") 7 "---"

/-- The builder `build_table`: `calendar.monthrange` raises `IllegalMonthError`
for a month outside 1–12 first, then `ValueError` for a year outside 1–9999
(via `datetime.date(year, month, 1)`); otherwise the grid is the two header
rows followed by one `dayRow` per day `1 … monthrange(anio, mes)[1]`. -/
def build_table (mes anio : Nat) (hora_maniana hora_tarde : String × String)
    (extras_dow : List Int) (notas_por_dia : List (Int × String))
    (feriados : Finset Date) : Except String (List (List Cell)) :=
  if ¬(1 ≤ mes ∧ mes ≤ 12) then .error "bad month: IllegalMonthError"
  else if ¬(1 ≤ anio ∧ anio ≤ 9999) then .error "year must be in 1..9999"
  else
    .ok (headerRow0 :: headerRow1 ::
      (List.range (daysInMonth anio mes)).map (fun i =>
        dayRow mes anio hora_maniana hora_tarde extras_dow notas_por_dia feriados (i + 1)))

/-- The driver `generar_planilla_word`: builds the document and saves it at `out_path`.
`doc.save` runs only after `build_table` returns, so an exception inside
`build_table` propagates before any file is written; the `.ok` value pairs
the saved path with the produced grid, and `.error` means no file appears. -/
def generar_planilla_word (out_path nombre oficina empleado : String)
    (mes anio : Nat) (hora_maniana hora_tarde : String × String)
    (extras_dow : List Int) (notas_por_dia : List (Int × String))
    (feriados : Finset Date) : Except String (String × List (List Cell)) :=
  match build_table mes anio hora_maniana hora_tarde extras_dow notas_por_dia feriados with
  | .error e => .error e
  | .ok t => .ok (out_path, t)

/-! ## Shape of the four row classifications -/

/-- Weekend branch of `build_table`'s loop: label (which survives, since the
weekend branch only fills columns 2–8), dashes in the time columns, blank
signature columns, light-gray fill on the whole row. -/
theorem dayRow_weekend {mes anio : Nat} {hm ht : String × String}
    {extras : List Int} {notas : List (Int × String)} {feriados : Finset Date}
    {d : Nat} (h : weekday anio mes d ≥ 5) :
    dayRow mes anio hm ht extras notas feriados d =
      [⟨toString d, some "F8F8F8"⟩,
       ⟨if weekday anio mes d == 5 then "SÁBADO" else "DOMINGO", some "F8F8F8"⟩,
       ⟨"", some "F8F8F8"⟩, ⟨"---", some "F8F8F8"⟩, ⟨"", some "F8F8F8"⟩,
       ⟨"---", some "F8F8F8"⟩, ⟨"", some "F8F8F8"⟩, ⟨"---", some "F8F8F8"⟩,
       ⟨"", some "F8F8F8"⟩] := by
  unfold dayRow
  rw [if_pos h]
  rfl

/-- Holiday branch of `build_table`'s loop: the "FERIADO" written to column
1 is overwritten by `fill_dashes` (columns 1–8), so the final label cell is
`"---"`; light-yellow fill on the whole row. -/
theorem dayRow_feriado {mes anio : Nat} {hm ht : String × String}
    {extras : List Int} {notas : List (Int × String)} {feriados : Finset Date}
    {d : Nat} (h1 : ¬ weekday anio mes d ≥ 5)
    (h2 : (⟨anio, mes, d⟩ : Date) ∈ feriados) :
    dayRow mes anio hm ht extras notas feriados d =
      [⟨toString d, some "FFF2CC"⟩, ⟨"---", some "FFF2CC"⟩,
       ⟨"", some "FFF2CC"⟩, ⟨"---", some "FFF2CC"⟩, ⟨"", some "FFF2CC"⟩,
       ⟨"---", some "FFF2CC"⟩, ⟨"", some "FFF2CC"⟩, ⟨"---", some "FFF2CC"⟩,
       ⟨"", some "FFF2CC"⟩] := by
  unfold dayRow
  rw [if_neg h1, if_pos h2]
  rfl

/-- Note branch of `build_table`'s loop: the note text written to column 1
is overwritten by `fill_dashes` (columns 1–8), so the final row carries no
note text and no fill. -/
theorem dayRow_nota {mes anio : Nat} {hm ht : String × String}
    {extras : List Int} {notas : List (Int × String)} {feriados : Finset Date}
    {d : Nat} (h1 : ¬ weekday anio mes d ≥ 5)
    (h2 : (⟨anio, mes, d⟩ : Date) ∉ feriados)
    (h3 : pyTruthy (dictGet notas (d : Int)) = true) :
    dayRow mes anio hm ht extras notas feriados d =
      [⟨toString d, none⟩, ⟨"---", none⟩, ⟨"", none⟩, ⟨"---", none⟩,
       ⟨"", none⟩, ⟨"---", none⟩, ⟨"", none⟩, ⟨"---", none⟩, ⟨"", none⟩] := by
  unfold dayRow
  rw [if_neg h1, if_neg h2, if_pos h3]
  rfl

/-- Regular branch, weekday in `extras_dow`: morning times in columns 1/3,
afternoon times in columns 5/7, blank signature columns, no fill. -/
theorem dayRow_regular_extra {mes anio : Nat} {hm ht : String × String}
    {extras : List Int} {notas : List (Int × String)} {feriados : Finset Date}
    {d : Nat} (h1 : ¬ weekday anio mes d ≥ 5)
    (h2 : (⟨anio, mes, d⟩ : Date) ∉ feriados)
    (h3 : pyTruthy (dictGet notas (d : Int)) = false)
    (h4 : (weekday anio mes d : Int) ∈ extras) :
    dayRow mes anio hm ht extras notas feriados d =
      [⟨toString d, none⟩, ⟨hm.1, none⟩, ⟨"", none⟩, ⟨hm.2, none⟩,
       ⟨"", none⟩, ⟨ht.1, none⟩, ⟨"", none⟩, ⟨ht.2, none⟩, ⟨"", none⟩] := by
  unfold dayRow
  rw [if_neg h1, if_neg h2, if_neg (by rw [h3]; exact Bool.false_ne_true), if_pos h4]
  rfl

/-- Regular branch, weekday not in `extras_dow`: morning times in columns
1/3, dashes in columns 5/7, blank signature columns, no fill. -/
theorem dayRow_regular_noextra {mes anio : Nat} {hm ht : String × String}
    {extras : List Int} {notas : List (Int × String)} {feriados : Finset Date}
    {d : Nat} (h1 : ¬ weekday anio mes d ≥ 5)
    (h2 : (⟨anio, mes, d⟩ : Date) ∉ feriados)
    (h3 : pyTruthy (dictGet notas (d : Int)) = false)
    (h4 : (weekday anio mes d : Int) ∉ extras) :
    dayRow mes anio hm ht extras notas feriados d =
      [⟨toString d, none⟩, ⟨hm.1, none⟩, ⟨"", none⟩, ⟨hm.2, none⟩,
       ⟨"", none⟩, ⟨"---", none⟩, ⟨"", none⟩, ⟨"---", none⟩, ⟨"", none⟩] := by
  unfold dayRow
  rw [if_neg h1, if_neg h2, if_neg (by rw [h3]; exact Bool.false_ne_true), if_neg h4]
  rfl

/-- Column 0 of every day row holds the decimal day number, whatever the
classification. -/
theorem dayRow_col0 (mes anio : Nat) (hm ht : String × String)
    (extras : List Int) (notas : List (Int × String)) (feriados : Finset Date)
    (d : Nat) :
    ((dayRow mes anio hm ht extras notas feriados d).getD 0 blankCell).text
      = toString d := by
  by_cases h1 : weekday anio mes d ≥ 5
  · rw [dayRow_weekend h1]; rfl
  · by_cases h2 : (⟨anio, mes, d⟩ : Date) ∈ feriados
    · rw [dayRow_feriado h1 h2]; rfl
    · by_cases h3 : pyTruthy (dictGet notas (d : Int)) = true
      · rw [dayRow_nota h1 h2 h3]; rfl
      · have h3f : pyTruthy (dictGet notas (d : Int)) = false :=
          Bool.eq_false_iff.mpr h3
        by_cases h4 : (weekday anio mes d : Int) ∈ extras
        · rw [dayRow_regular_extra h1 h2 h3f h4]; rfl
        · rw [dayRow_regular_noextra h1 h2 h3f h4]; rfl

/-! ## Shape of the whole table -/

/-- With a valid month and year, `build_table` succeeds with the two header
rows followed by the day rows for days `1 … daysInMonth`. -/
theorem build_table_ok {mes anio : Nat} (hm ht : String × String)
    (extras : List Int) (notas : List (Int × String)) (feriados : Finset Date)
    (hm1 : 1 ≤ mes) (hm2 : mes ≤ 12) (ha1 : 1 ≤ anio) (ha2 : anio ≤ 9999) :
    build_table mes anio hm ht extras notas feriados =
      .ok (headerRow0 :: headerRow1 ::
        (List.range (daysInMonth anio mes)).map (fun i =>
          dayRow mes anio hm ht extras notas feriados (i + 1))) := by
  unfold build_table
  rw [if_neg (not_not_intro ⟨hm1, hm2⟩), if_neg (not_not_intro ⟨ha1, ha2⟩)]

/-- Row `1 + d` of the header-plus-days list is the day-`d` row. -/
theorem rows_getD (h0 h1 : List Cell) (f : Nat → List Cell) (n d : Nat)
    (hd1 : 1 ≤ d) (hd2 : d ≤ n) :
    (h0 :: h1 :: (List.range n).map (fun i => f (i + 1))).getD (1 + d) [] = f d := by
  obtain ⟨e, rfl⟩ : ∃ e, d = e + 1 := ⟨d - 1, by omega⟩
  have h12 : 1 + (e + 1) = e + 1 + 1 := by omega
  rw [h12, List.getD_cons_succ, List.getD_cons_succ,
    List.getD_eq_getElem?_getD, List.getElem?_map,
    List.getElem?_range (by omega : e < n)]
  rfl

/-- A month in 1–12 has between 28 and 31 days. -/
theorem daysInMonth_bounds (anio mes : Nat) (hm1 : 1 ≤ mes) (hm2 : mes ≤ 12) :
    28 ≤ daysInMonth anio mes ∧ daysInMonth anio mes ≤ 31 := by
  interval_cases mes <;> cases h : isLeap anio <;> simp [daysInMonth, h]

/-! ## The claims about the generated table -/

/-- C1: for every month in [1,12] and valid year, the Sheet Builder
(`build_table`) produces exactly 2 header rows followed by one row per
calendar day of that month (28–31 day rows), in increasing day order: row
`1 + d` of the table is day `d`'s row, for `d = 1 … daysInMonth`. -/
theorem C1_sheet_shape (mes anio : Nat) (hm ht : String × String)
    (extras : List Int) (notas : List (Int × String)) (feriados : Finset Date)
    (hm1 : 1 ≤ mes) (hm2 : mes ≤ 12) (ha1 : 1 ≤ anio) (ha2 : anio ≤ 9999) :
    ∃ t, build_table mes anio hm ht extras notas feriados = .ok t ∧
      t.length = 2 + daysInMonth anio mes ∧
      28 ≤ daysInMonth anio mes ∧ daysInMonth anio mes ≤ 31 ∧
      ∀ d, 1 ≤ d → d ≤ daysInMonth anio mes →
        t.getD (1 + d) [] = dayRow mes anio hm ht extras notas feriados d := by
  refine ⟨_, build_table_ok hm ht extras notas feriados hm1 hm2 ha1 ha2,
    ?_, (daysInMonth_bounds anio mes hm1 hm2).1,
    (daysInMonth_bounds anio mes hm1 hm2).2, ?_⟩
  · simp only [List.length_cons, List.length_map, List.length_range]
    omega
  · intro d hd1 hd2
    exact rows_getD headerRow0 headerRow1
      (dayRow mes anio hm ht extras notas feriados) _ d hd1 hd2

/-- Witness for C1 at September 2025 with the CLI defaults. -/
theorem C1_sheet_shape_witness :
    ∃ t, build_table 9 2025 ("6:30", "13:00") ("16:00", "19:00") [1, 3] [] ∅
        = .ok t ∧
      t.length = 2 + daysInMonth 2025 9 ∧
      28 ≤ daysInMonth 2025 9 ∧ daysInMonth 2025 9 ≤ 31 ∧
      ∀ d, 1 ≤ d → d ≤ daysInMonth 2025 9 →
        t.getD (1 + d) [] =
          dayRow 9 2025 ("6:30", "13:00") ("16:00", "19:00") [1, 3] [] ∅ d :=
  C1_sheet_shape 9 2025 ("6:30", "13:00") ("16:00", "19:00") [1, 3] [] ∅
    (by decide) (by decide) (by decide) (by decide)

/-- C10: for every day row of every generated sheet, irrespective of its
classification, the leading column holds exactly the decimal day number. -/
theorem C10_day_number_column (mes anio : Nat) (hm ht : String × String)
    (extras : List Int) (notas : List (Int × String)) (feriados : Finset Date)
    (hm1 : 1 ≤ mes) (hm2 : mes ≤ 12) (ha1 : 1 ≤ anio) (ha2 : anio ≤ 9999) :
    ∃ t, build_table mes anio hm ht extras notas feriados = .ok t ∧
      ∀ d, 1 ≤ d → d ≤ daysInMonth anio mes →
        ((t.getD (1 + d) []).getD 0 blankCell).text = toString d := by
  refine ⟨_, build_table_ok hm ht extras notas feriados hm1 hm2 ha1 ha2, ?_⟩
  intro d hd1 hd2
  rw [rows_getD headerRow0 headerRow1
    (dayRow mes anio hm ht extras notas feriados) _ d hd1 hd2]
  exact dayRow_col0 mes anio hm ht extras notas feriados d

/-- Witness for C10 at September 2025 with a holiday, a note and the CLI
defaults, so that every classification occurs in the witnessed sheet. -/
theorem C10_day_number_column_witness :
    ∃ t, build_table 9 2025 ("6:30", "13:00") ("16:00", "19:00") [1, 3]
        [((16 : Int), "LICENCIA")] {⟨2025, 9, 15⟩} = .ok t ∧
      ∀ d, 1 ≤ d → d ≤ daysInMonth 2025 9 →
        ((t.getD (1 + d) []).getD 0 blankCell).text = toString d :=
  C10_day_number_column 9 2025 ("6:30", "13:00") ("16:00", "19:00") [1, 3]
    [((16 : Int), "LICENCIA")] {⟨2025, 9, 15⟩}
    (by decide) (by decide) (by decide) (by decide)

/-- C2: every day whose weekday index is ≥ 5 renders as a Weekend row —
label "SÁBADO" (the spec's SATURDAY) for index 5, "DOMINGO" (SUNDAY) for 6,
the remaining time columns dashed, the signature columns blank, light-gray
fill — for every `feriados` and `notas_por_dia`, i.e. regardless of
holiday-set or note-map membership (weekend precedence). -/
theorem C2_weekend_precedence (mes anio : Nat) (hm ht : String × String)
    (extras : List Int) (notas : List (Int × String)) (feriados : Finset Date)
    (d : Nat)
    (hm1 : 1 ≤ mes) (hm2 : mes ≤ 12) (ha1 : 1 ≤ anio) (ha2 : anio ≤ 9999)
    (hd1 : 1 ≤ d) (hd2 : d ≤ daysInMonth anio mes)
    (hw : weekday anio mes d ≥ 5) :
    ∃ t, build_table mes anio hm ht extras notas feriados = .ok t ∧
      t.getD (1 + d) [] =
        [⟨toString d, some "F8F8F8"⟩,
         ⟨if weekday anio mes d == 5 then "SÁBADO" else "DOMINGO",
           some "F8F8F8"⟩,
         ⟨"", some "F8F8F8"⟩, ⟨"---", some "F8F8F8"⟩, ⟨"", some "F8F8F8"⟩,
         ⟨"---", some "F8F8F8"⟩, ⟨"", some "F8F8F8"⟩, ⟨"---", some "F8F8F8"⟩,
         ⟨"", some "F8F8F8"⟩] := by
  refine ⟨_, build_table_ok hm ht extras notas feriados hm1 hm2 ha1 ha2, ?_⟩
  rw [rows_getD headerRow0 headerRow1
    (dayRow mes anio hm ht extras notas feriados) _ d hd1 hd2]
  exact dayRow_weekend hw

/-- Witness for C2: Saturday 2025-09-06 is listed in the holiday set and
keyed in the note map, yet still renders as "SÁBADO". -/
theorem C2_weekend_precedence_witness :
    ∃ t, build_table 9 2025 ("6:30", "13:00") ("16:00", "19:00") [1, 3]
        [((6 : Int), "NOTA")] {⟨2025, 9, 6⟩} = .ok t ∧
      t.getD (1 + 6) [] =
        [⟨toString 6, some "F8F8F8"⟩,
         ⟨if weekday 2025 9 6 == 5 then "SÁBADO" else "DOMINGO",
           some "F8F8F8"⟩,
         ⟨"", some "F8F8F8"⟩, ⟨"---", some "F8F8F8"⟩, ⟨"", some "F8F8F8"⟩,
         ⟨"---", some "F8F8F8"⟩, ⟨"", some "F8F8F8"⟩, ⟨"---", some "F8F8F8"⟩,
         ⟨"", some "F8F8F8"⟩] :=
  C2_weekend_precedence 9 2025 ("6:30", "13:00") ("16:00", "19:00") [1, 3]
    [((6 : Int), "NOTA")] {⟨2025, 9, 6⟩} 6
    (by decide) (by decide) (by decide) (by decide)
    (by decide) (by decide) (by decide)

/-- C4: every regular workday (non-weekend, not a holiday, day number not a
key of the note map) shows the morning times in the morning entry/exit
columns, the afternoon times in the afternoon entry/exit columns exactly
when the weekday index lies in `extras_dow` and dashes otherwise, and blank
signature columns in both cases. -/
theorem C4_regular_workday (mes anio : Nat) (hm ht : String × String)
    (extras : List Int) (notas : List (Int × String)) (feriados : Finset Date)
    (d : Nat)
    (hm1 : 1 ≤ mes) (hm2 : mes ≤ 12) (ha1 : 1 ≤ anio) (ha2 : anio ≤ 9999)
    (hd1 : 1 ≤ d) (hd2 : d ≤ daysInMonth anio mes)
    (hw : ¬ weekday anio mes d ≥ 5)
    (hf : (⟨anio, mes, d⟩ : Date) ∉ feriados)
    (hn : dictGet notas (d : Int) = none) :
    ∃ t, build_table mes anio hm ht extras notas feriados = .ok t ∧
      t.getD (1 + d) [] =
        [⟨toString d, none⟩, ⟨hm.1, none⟩, ⟨"", none⟩, ⟨hm.2, none⟩,
         ⟨"", none⟩,
         ⟨if (weekday anio mes d : Int) ∈ extras then ht.1 else "---", none⟩,
         ⟨"", none⟩,
         ⟨if (weekday anio mes d : Int) ∈ extras then ht.2 else "---", none⟩,
         ⟨"", none⟩] := by
  refine ⟨_, build_table_ok hm ht extras notas feriados hm1 hm2 ha1 ha2, ?_⟩
  rw [rows_getD headerRow0 headerRow1
    (dayRow mes anio hm ht extras notas feriados) _ d hd1 hd2]
  have h3f : pyTruthy (dictGet notas (d : Int)) = false := by rw [hn]; rfl
  by_cases h4 : (weekday anio mes d : Int) ∈ extras
  · rw [dayRow_regular_extra hw hf h3f h4, if_pos h4, if_pos h4]
  · rw [dayRow_regular_noextra hw hf h3f h4, if_neg h4, if_neg h4]

/-- Witness for C4 at Tuesday 2025-09-02 (weekday 1, in the default
afternoon set) with the CLI default schedule. -/
theorem C4_regular_workday_witness :
    ∃ t, build_table 9 2025 ("6:30", "13:00") ("16:00", "19:00") [1, 3] [] ∅
        = .ok t ∧
      t.getD (1 + 2) [] =
        [⟨toString 2, none⟩, ⟨"6:30", none⟩, ⟨"", none⟩, ⟨"13:00", none⟩,
         ⟨"", none⟩,
         ⟨if (weekday 2025 9 2 : Int) ∈ [(1 : Int), 3] then "16:00" else "---",
           none⟩,
         ⟨"", none⟩,
         ⟨if (weekday 2025 9 2 : Int) ∈ [(1 : Int), 3] then "19:00" else "---",
           none⟩,
         ⟨"", none⟩] :=
  C4_regular_workday 9 2025 ("6:30", "13:00") ("16:00", "19:00") [1, 3] [] ∅ 2
    (by decide) (by decide) (by decide) (by decide)
    (by decide) (by decide) (by decide) (by decide) rfl

/-! ## The claims the code falsifies (label cells clobbered by
`fill_dashes`) -/

/-- C3 evaluated at its failing input: September 2025 with 2025-09-15 (a
Monday) in the holiday set. The holiday branch is taken — the whole row 16
is shaded light-yellow `FFF2CC` — but the label cell reads `"---"`, not
`"FERIADO"` (the spec's HOLIDAY): `build_table` writes `"FERIADO"` to
column 1 and then calls `fill_dashes()`, which loops over columns 1–8 and
overwrites it. -/
theorem C3_feriado_label_overwritten :
    ((build_table 9 2025 ("6:30", "13:00") ("16:00", "19:00") [1, 3] []
        {⟨2025, 9, 15⟩}).toOption.getD []).getD 16 [] =
      [⟨"15", some "FFF2CC"⟩, ⟨"---", some "FFF2CC"⟩, ⟨"", some "FFF2CC"⟩,
       ⟨"---", some "FFF2CC"⟩, ⟨"", some "FFF2CC"⟩, ⟨"---", some "FFF2CC"⟩,
       ⟨"", some "FFF2CC"⟩, ⟨"---", some "FFF2CC"⟩, ⟨"", some "FFF2CC"⟩] :=
  rfl

/-- C5 evaluated at its failing input: September 2025 with the note map
`{16: "LICENCIA"}`; 2025-09-16 is a Tuesday, not a holiday. The note branch
is taken, but the row that comes out carries `"---"` in the label cell and
the text "LICENCIA" nowhere: as in the holiday branch, `fill_dashes()`
overwrites column 1 right after the note text is written there. -/
theorem C5_nota_label_overwritten :
    ((build_table 9 2025 ("6:30", "13:00") ("16:00", "19:00") [1, 3]
        [((16 : Int), "LICENCIA")] ∅).toOption.getD []).getD 17 [] =
      [⟨"16", none⟩, ⟨"---", none⟩, ⟨"", none⟩, ⟨"---", none⟩, ⟨"", none⟩,
       ⟨"---", none⟩, ⟨"", none⟩, ⟨"---", none⟩, ⟨"", none⟩] :=
  rfl

/-! ## Validation before output (C9) -/

/-- C9: for every invalid month/year combination — month outside [1,12]
(`IllegalMonthError` from `calendar.monthrange`) or year outside Python's
`date` range [1,9999] — `generar_planilla_word` propagates the error raised
inside `build_table` before any day row is produced, so no output value
(and hence no file at `out_path`) is ever created. -/
theorem C9_invalid_month_no_output (out_path nombre oficina empleado : String)
    (mes anio : Nat) (hm ht : String × String) (extras : List Int)
    (notas : List (Int × String)) (feriados : Finset Date)
    (h : ¬(1 ≤ mes ∧ mes ≤ 12) ∨ ¬(1 ≤ anio ∧ anio ≤ 9999)) :
    ∃ e, generar_planilla_word out_path nombre oficina empleado mes anio
        hm ht extras notas feriados = .error e := by
  unfold generar_planilla_word build_table
  rcases h with h | h
  · rw [if_pos h]
    exact ⟨_, rfl⟩
  · by_cases h1 : 1 ≤ mes ∧ mes ≤ 12
    · rw [if_neg (not_not_intro h1), if_pos h]
      exact ⟨_, rfl⟩
    · rw [if_pos h1]
      exact ⟨_, rfl⟩

/-- Witness for C9 at month 13. -/
theorem C9_invalid_month_no_output_witness :
    ∃ e, generar_planilla_word "PLANILLA.docx" "N" "CPI" "123" 13 2025
        ("6:30", "13:00") ("16:00", "19:00") [1, 3] [] ∅ = .error e :=
  C9_invalid_month_no_output "PLANILLA.docx" "N" "CPI" "123" 13 2025
    ("6:30", "13:00") ("16:00", "19:00") [1, 3] [] ∅ (Or.inl (by decide))

/-! ## The time-pair validator agrees with the spec predicate (C6) -/

/-- A single `HH:MM` check succeeds exactly on the spec's valid times. -/
theorem checkHHMM_isOk (p : String) : (checkHHMM p).isOk = validHHMM_spec p := by
  unfold checkHHMM validHHMM_spec
  by_cases h : (pySplit ':' p).length = 2
  · obtain ⟨x, y, hxy⟩ := List.length_eq_two.mp h
    rw [hxy]
    simp only [List.getD_cons_zero, List.getD_cons_succ]
    rcases h0 : pyDigits? x with _ | hh
    · simp [h0, Except.isOk, Except.toBool]
    · rcases h1 : pyDigits? y with _ | mm
      · simp [h0, h1, Except.isOk, Except.toBool]
      · cases hc : (hh ≤ 23 && mm ≤ 59) <;>
          simp [h0, h1, hc, Except.isOk, Except.toBool]
  · simp [h, Except.isOk, Except.toBool]

/-- The whole validator succeeds exactly on the spec's well-formed
time-pair strings. -/
theorem parse_horas_isOk (s : String) :
    (parse_horas s).isOk = timePair_spec s := by
  unfold parse_horas timePair_spec
  by_cases h : ((pySplit ',' s).map pyStrip).length = 2
  · obtain ⟨a, b, hab⟩ := List.length_eq_two.mp h
    rw [hab]
    by_cases hca : a.data.contains ':'
    · by_cases hcb : b.data.contains ':'
      · have hma : ':' ∈ a.data := by simpa using hca
        have hmb : ':' ∈ b.data := by simpa using hcb
        rcases ha : checkHHMM a with ea | ua
        · have va : validHHMM_spec a = false := by
            have t := checkHHMM_isOk a
            rw [ha] at t
            exact t.symm
          simp [hca, hcb, hma, hmb, ha, va, Except.isOk, Except.toBool]
        · have va : validHHMM_spec a = true := by
            have t := checkHHMM_isOk a
            rw [ha] at t
            exact t.symm
          rcases hb : checkHHMM b with eb | ub
          · have vb : validHHMM_spec b = false := by
              have t := checkHHMM_isOk b
              rw [hb] at t
              exact t.symm
            simp [hca, hcb, hma, hmb, ha, hb, va, vb, Except.isOk, Except.toBool]
          · have vb : validHHMM_spec b = true := by
              have t := checkHHMM_isOk b
              rw [hb] at t
              exact t.symm
            simp [hca, hcb, hma, hmb, ha, hb, va, vb, Except.isOk, Except.toBool]
      · have hmb : ':' ∉ b.data := by simpa using hcb
        simp [hca, hmb, Except.isOk, Except.toBool]
    · have hma : ':' ∉ a.data := by simpa using hca
      simp [hma, Except.isOk, Except.toBool]
  · rw [List.length_map] at h
    simp [h, Except.isOk, Except.toBool]

/-- C6: the form-path time-pair validator succeeds, returning the stripped
(entry, exit) pair, exactly when the input splits on the comma into two
parts, each containing a colon and consisting of exactly two numeric
segments with hour in [0,23] and minute in [0,59]; the given examples
behave as the spec says, the rejection messages naming the offending
token where one exists. -/
theorem C6_time_pair_validator :
    (∀ s : String, (parse_horas s).isOk = timePair_spec s) ∧
    parse_horas "06:30,13:00" = .ok ("06:30", "13:00") ∧
    parse_horas "6:30-13:00" =
      .error "Formato de hora inválido. Use HH:MM,HH:MM (ej: 06:30,13:00)" ∧
    parse_horas "25:00,13:00" = .error "Hora fuera de rango: 25:00" :=
  ⟨parse_horas_isOk, rfl, rfl, rfl⟩

/-! ## The date-list parser (C7) -/

/-- Membership in the holiday fold: a date is collected iff it was already
in the accumulator or some token parses to it. -/
theorem foldl_insert_mem (l : List String) (init : Finset Date) (dt : Date) :
    dt ∈ l.foldl (fun out tok =>
      match tokenDate? tok with
      | some x => insert x out
      | none => out) init ↔ dt ∈ init ∨ dt ∈ l.filterMap tokenDate? := by
  induction l generalizing init with
  | nil => simp
  | cons t ts ih =>
    rw [List.foldl_cons, List.filterMap_cons]
    rcases h : tokenDate? t with _ | x
    · simp only [h]
      rw [ih]
    · simp only [h]
      rw [ih]
      simp only [Finset.mem_insert, List.mem_cons]
      tauto

/-- The parsed holiday set holds exactly the dates of the tokens that fully
parse (strip, three `int()` pieces, valid calendar date); malformed tokens
contribute nothing. -/
theorem mem_parse_date_list (text : String) (dt : Date) :
    dt ∈ parse_date_list text ↔ dt ∈ (pySplit ',' text).filterMap tokenDate? := by
  unfold parse_date_list
  by_cases h : text = ""
  · subst h
    have h2 : (pySplit ',' "").filterMap tokenDate? = ([] : List Date) := rfl
    rw [h2]
    simp
  · rw [if_neg (by simp [h]), foldl_insert_mem]
    simp

/-- C7: the date-list parser maps a comma-separated string to the set of
the valid `YYYY-MM-DD` dates among its tokens, silently skipping every
malformed token (it is total, so it never raises); the empty input yields
the empty set, and the spec's example keeps exactly its two valid dates. -/
theorem C7_date_list_parsing :
    (∀ text dt, dt ∈ parse_date_list text ↔
      dt ∈ (pySplit ',' text).filterMap tokenDate?) ∧
    parse_date_list "2025-07-09,bad,2025-07-19" =
      {⟨2025, 7, 9⟩, ⟨2025, 7, 19⟩} ∧
    parse_date_list "" = ∅ :=
  ⟨mem_parse_date_list, by decide, rfl⟩

/-! ## The note-map parser (C8) -/

/-- Updating the value stored at key `k` does not change lookups of other
keys. -/
theorem find?_dictUpdate_ne (d : List (Int × String)) (k q : Int) (v : String)
    (hq : q ≠ k) :
    (d.map (fun p => if p.1 == k then (k, v) else p)).find? (fun p => p.1 == q)
      = d.find? (fun p => p.1 == q) := by
  induction d with
  | nil => rfl
  | cons p ps ih =>
    simp only [List.map_cons, List.find?_cons]
    by_cases hp : p.1 = k
    · rw [if_pos (by simp [hp])]
      have h1 : (((k, v) : Int × String).1 == q) = false := by
        simp [Ne.symm hq]
      have h2 : (p.1 == q) = false := by simp [hp, Ne.symm hq]
      rw [h1, h2, ih]
    · rw [if_neg (by simp [hp])]
      cases hpq : (p.1 == q)
      · rw [ih]
      · rfl

/-- If some entry has key `k`, the first entry with key `k` after the
update carries the new value. -/
theorem find?_dictUpdate_eq (d : List (Int × String)) (k : Int) (v : String)
    (h : d.any (fun p => p.1 == k) = true) :
    (d.map (fun p => if p.1 == k then (k, v) else p)).find? (fun p => p.1 == k)
      = some (k, v) := by
  induction d with
  | nil => simp at h
  | cons p ps ih =>
    simp only [List.map_cons, List.find?_cons]
    by_cases hp : p.1 = k
    · rw [if_pos (by simp [hp])]
      simp
    · rw [if_neg (by simp [hp])]
      have h1 : (p.1 == k) = false := by simp [hp]
      rw [h1]
      apply ih
      simp only [List.any_cons, h1, Bool.false_or] at h
      exact h

/-- Python dictionary assignment followed by `get`: the assigned key now
answers the new value, all other keys are untouched. -/
theorem dictGet_dictInsert (d : List (Int × String)) (k q : Int) (v : String) :
    dictGet (dictInsert d k v) q = if q = k then some v else dictGet d q := by
  unfold dictGet dictInsert
  by_cases hany : d.any (fun p => p.1 == k) = true
  · rw [if_pos hany]
    by_cases hq : q = k
    · subst hq
      rw [find?_dictUpdate_eq d q v hany]
      simp
    · rw [find?_dictUpdate_ne d k q v hq, if_neg hq]
  · rw [if_neg hany]
    have hnone : d.find? (fun p => p.1 == q) = none ∨ q ≠ k := by
      by_cases hq : q = k
      · subst hq
        left
        rw [List.find?_eq_none]
        intro x hx hxq
        exact hany (List.any_eq_true.mpr ⟨x, hx, hxq⟩)
      · right
        exact hq
    rw [List.find?_append]
    by_cases hq : q = k
    · subst hq
      rcases hnone with hn | hn
      · rw [hn, if_pos rfl]
        simp [List.find?_cons]
      · exact absurd rfl hn
    · have h1 : (((k, v) : Int × String).1 == q) = false := by
        simp [Ne.symm hq]
      rw [if_neg hq]
      cases hd : d.find? (fun p => p.1 == q)
      · simp [hd, List.find?_cons, h1]
      · simp [hd]

/-- Looking a key up after folding the note tokens into the dictionary
answers the value of the last token that mentions the key, and otherwise
whatever the initial dictionary answered. -/
theorem dictGet_foldl_notes (l : List String) (init : List (Int × String))
    (q : Int) :
    dictGet (l.foldl (fun out tok =>
      match tokenNote? tok with
      | some kv => dictInsert out kv.1 kv.2
      | none => out) init) q =
    match (l.filterMap tokenNote?).reverse.find? (fun p => p.1 == q) with
    | some p => some p.2
    | none => dictGet init q := by
  induction l generalizing init with
  | nil => simp
  | cons t ts ih =>
    rw [List.foldl_cons, List.filterMap_cons]
    rcases h : tokenNote? t with _ | kv
    · simp only [h]
      rw [ih]
    · simp only [h, List.reverse_cons]
      rw [ih (dictInsert init kv.1 kv.2), List.find?_append]
      rcases hf : (List.filterMap tokenNote? ts).reverse.find?
          (fun p => p.1 == q) with _ | p
      · simp only [hf, Option.none_or]
        by_cases hq : kv.1 = q
        · have h1 : (kv.1 == q) = true := by simp [hq]
          simp [List.find?_cons, h1, dictGet_dictInsert, hq.symm]
        · have h1 : (kv.1 == q) = false := by simp [hq]
          simp [List.find?_cons, h1, dictGet_dictInsert, Ne.symm hq]
      · simp [hf]

/-- C8: the note-map parser maps a comma-separated string of `day:text`
tokens to a mapping from integer day to trimmed text, splitting each token
on its first colon only; tokens without a colon or with a non-numeric day
segment are silently skipped; the empty input yields the empty mapping; and
a lookup in the produced mapping answers the (last) parsed token for that
key. -/
theorem C8_note_map_parsing :
    parse_notes "16:LICENCIA,notanumber:X,17:CAPACITACION" =
      [((16 : Int), "LICENCIA"), ((17 : Int), "CAPACITACION")] ∧
    parse_notes "" = [] ∧
    parse_notes "20:A:B" = [((20 : Int), "A:B")] ∧
    parse_notes "nocolon" = [] ∧
    parse_notes " 8 : PERMISO " = [((8 : Int), "PERMISO")] ∧
    (∀ text q, dictGet (parse_notes text) q =
      match ((pySplit ',' text).filterMap tokenNote?).reverse.find?
          (fun p => p.1 == q) with
      | some p => some p.2
      | none => none) := by
  refine ⟨rfl, rfl, rfl, rfl, rfl, fun text q => ?_⟩
  unfold parse_notes
  by_cases h : text = ""
  · subst h
    have h2 : (pySplit ',' "").filterMap tokenNote?
        = ([] : List (Int × String)) := rfl
    rw [h2]
    simp [dictGet]
  · rw [if_neg (by simp [h]), dictGet_foldl_notes]
    have h3 : dictGet [] q = none := rfl
    rw [h3]
